import Mathlib

/-!
Shallow embedding of the MyShell process-lifecycle and stream-capture engine
(src/src/myshell.cpp, Unix branch), for checking the specification's claims.

Bytes are modelled as `Nat`; the `std::string` buffers are `List Nat`.
OS interactions (`read`, `waitpid`, `pipe`, `fork`, `kill`) are modelled by
passing their outcomes in explicitly, so every operation is a pure function
of the object state and the OS outcome it observed.
-/

namespace MyShell

abbrev Byte := Nat

/-- Linux errno value for EAGAIN, the would-block condition of a
non-blocking `read`. -/
def EAGAIN : Nat := 11

/-- The effect of `tempBuffer[bytesRead] = strtermchar; buffer += tempBuffer.data()`
in `MyShell::readFromPipe` (myshell.cpp lines 216-220): `data()` is a C string,
so the appended text is the chunk only up to (excluding) its first NUL byte. -/
def cString (chunk : List Byte) : List Byte := chunk.takeWhile (fun b => b != 0)

/-- Outcome of one non-blocking `read` call in the pump loop
(myshell.cpp lines 210-214): `dataR chunk` is `bytesRead = chunk.length > 0`
with `chunk` the bytes delivered, `eofR` is `bytesRead = 0`, and `errR e` is
`bytesRead = -1` with `errno = e`. -/
inductive ReadOutcome where
  | dataR (chunk : List Byte)
  | eofR
  | errR (e : Nat)
deriving DecidableEq, Repr

/-- Buffer update performed by one iteration of the Unix
`MyShell::readFromPipe` loop body (myshell.cpp lines 216-223): a positive
read appends the chunk as a C string (up to its first NUL); a zero read
(end of stream) and a failed read append nothing. -/
def readIterBuf : ReadOutcome → List Byte → List Byte
  | .dataR chunk, buf => if chunk.length > 0 then buf ++ cString chunk else buf
  | .eofR, buf => buf
  | .errR _, buf => buf

/-- Whether one iteration of the Unix `MyShell::readFromPipe` loop performs
the 10 ms backoff sleep (myshell.cpp lines 222-223): only when the read
returned -1 with `errno == EAGAIN`. -/
def readIterSleeps : ReadOutcome → Bool
  | .dataR _ => false
  | .eofR => false
  | .errR e => e == EAGAIN

/-- The Unix `MyShell::readFromPipe` loop (myshell.cpp lines 205-225) run
over a finite schedule of read outcomes; the schedule ends when `stopSignal`
is observed true. The loop body contains no break or return, so every
outcome in the schedule is processed. Returns the final buffer and the
number of backoff sleeps performed. -/
def readFromPipe : List ReadOutcome → List Byte → List Byte × Nat
  | [], buf => (buf, 0)
  | o :: rest, buf =>
    let r := readFromPipe rest (readIterBuf o buf)
    (r.1, (if readIterSleeps o then 1 else 0) + r.2)

/-- An event on one output stream: either the pump processes a read outcome,
or the consumer drains the buffer (`readShellOutputStream` /
`readShellErrorStream`, an atomic move-out-and-clear). -/
inductive StreamEvent where
  | readEv (o : ReadOutcome)
  | drainEv
deriving DecidableEq, Repr

/-- Sequential semantics of one stream: pump appends interleaved with
consumer drains. Returns the list of drained strings, in call order, and
the final buffer contents. A drain returns the whole current buffer and
leaves it empty (myshell.cpp lines 265-279). -/
def runStream : List StreamEvent → List Byte → List (List Byte) × List Byte
  | [], buf => ([], buf)
  | .readEv o :: rest, buf => runStream rest (readIterBuf o buf)
  | .drainEv :: rest, buf =>
    let r := runStream rest []
    (buf :: r.1, r.2)

/-- The total byte sequence the child wrote to the stream, as delivered by
the successful reads of the schedule. -/
def writtenBytes : List StreamEvent → List Byte
  | [] => []
  | .readEv (.dataR c) :: rest => c ++ writtenBytes rest
  | .readEv .eofR :: rest => writtenBytes rest
  | .readEv (.errR _) :: rest => writtenBytes rest
  | .drainEv :: rest => writtenBytes rest

/-- Concatenation, in call order, of everything the drain calls returned. -/
def drainedBytes (evs : List StreamEvent) : List Byte :=
  ((runStream evs []).1).flatten

/-! ### Lifecycle state machine -/

/-- The `status` word reported by `waitpid` when the child was reaped:
either normal termination via `exit(code)` (`WIFEXITED` true, `WEXITSTATUS`
the low 8 bits of the code) or abnormal termination such as signal death. -/
inductive WaitStatus where
  | exitedNormally (code : Nat)
  | signaled (sig : Nat)
deriving DecidableEq, Repr

/-- Outcome of the non-blocking `waitpid(procId, &status, WNOHANG)` call
(myshell.cpp lines 348-352): 0 while the child runs, -1 on error, a
positive pid with a status once the child terminated. -/
inductive WaitResult where
  | stillRunning
  | waitFailed
  | reaped (st : WaitStatus)
deriving DecidableEq, Repr

/-- Exit-code normalization of myshell.cpp line 356:
`WIFEXITED(status) ? WEXITSTATUS(status) : 1`. `WEXITSTATUS` exposes only
the low 8 bits of the code passed to `exit`. -/
def normalizeStatus : WaitStatus → Int
  | .exitedNormally code => ((code % 256 : Nat) : Int)
  | .signaled _ => 1

/-- The mutable state of a `MyShell` object that the lifecycle and drain
operations touch: the member variables of the class (myshell.hpp lines
125-133), with the two output buffers as byte lists. -/
structure ShellState where
  procHasExited : Bool
  procExitCode : Int
  stopSignal : Bool
  outputBuffer : List Byte
  errorBuffer : List Byte
deriving DecidableEq, Repr

/-- State established by the `MyShell::MyShell` constructor init list
(myshell.cpp lines 27-30): `procHasExited(false), procExitCode(0),
stopSignal(false)`, both buffers empty. -/
def initState : ShellState :=
  { procHasExited := false
    procExitCode := 0
    stopSignal := false
    outputBuffer := []
    errorBuffer := [] }

/-- `MyShell::readShellOutputStream` (myshell.cpp lines 265-271): under the
output mutex, move the buffer contents out, clear the buffer, return the
moved contents. -/
def readShellOutputStream (s : ShellState) : List Byte × ShellState :=
  (s.outputBuffer, { s with outputBuffer := [] })

/-- `MyShell::readShellErrorStream` (myshell.cpp lines 273-279): under the
error mutex, move the buffer contents out, clear the buffer, return the
moved contents. -/
def readShellErrorStream (s : ShellState) : List Byte × ShellState :=
  (s.errorBuffer, { s with errorBuffer := [] })

/-- `MyShell::forceExit` (myshell.cpp lines 313-322): send SIGTERM via
`kill` (its return value is not inspected, so the result does not depend
on whether the OS call succeeded), then unconditionally set
`procHasExited = true` and `procExitCode = 1`. -/
def forceExit (s : ShellState) : ShellState :=
  { s with procHasExited := true, procExitCode := 1 }

/-- The two discarded drain calls `readShellOutputStream();
readShellErrorStream();` performed inside `MyShell::hasExited`. -/
def drainBoth (s : ShellState) : ShellState :=
  (readShellErrorStream (readShellOutputStream s).2).2

/-- `MyShell::hasExited` (myshell.cpp lines 324-366, Unix branch), with the
`waitpid` outcome passed in. If already latched: drain both buffers,
return true. Otherwise on a reaped child: latch the flag, store the
normalized exit code, drain both buffers (after a 10 ms grace sleep, not
modelled), return true. Otherwise return the (false) flag unchanged. -/
def hasExited (w : WaitResult) (s : ShellState) : Bool × ShellState :=
  if s.procHasExited then
    (true, drainBoth s)
  else
    match w with
    | .reaped st =>
      let s1 := { s with procHasExited := true, procExitCode := normalizeStatus st }
      (true, drainBoth s1)
    | _ => (s.procHasExited, s)

/-- `MyShell::exitCode` (myshell.cpp lines 368-373): run `hasExited` first
when the flag is not yet latched, then return `procExitCode`. -/
def exitCode (w : WaitResult) (s : ShellState) : Int × ShellState :=
  let s1 := if s.procHasExited then s else (hasExited w s).2
  (s1.procExitCode, s1)

/-- One caller-visible or pump operation on the object state, with the OS
outcomes it observes passed in. The append operations are the pump threads
appending a read chunk (as a C string) under the buffer lock. -/
inductive Op where
  | hasExitedOp (w : WaitResult)
  | exitCodeOp (w : WaitResult)
  | forceExitOp
  | drainOutOp
  | drainErrOp
  | appendOutOp (chunk : List Byte)
  | appendErrOp (chunk : List Byte)
deriving DecidableEq, Repr

/-- Apply one operation to the object state. -/
def applyOp : Op → ShellState → ShellState
  | .hasExitedOp w, s => (hasExited w s).2
  | .exitCodeOp w, s => (exitCode w s).2
  | .forceExitOp, s => forceExit s
  | .drainOutOp, s => (readShellOutputStream s).2
  | .drainErrOp, s => (readShellErrorStream s).2
  | .appendOutOp c, s => { s with outputBuffer := s.outputBuffer ++ cString c }
  | .appendErrOp c, s => { s with errorBuffer := s.errorBuffer ++ cString c }

/-- Run a sequence of operations from a starting state. -/
def runOps (ops : List Op) (s : ShellState) : ShellState :=
  ops.foldl (fun st op => applyOp op st) s

/-! ### Constructor / spawning -/

/-- The six pipe ends created by the three `pipe` calls of
`MyShell::createUnixProcess`: `inputPipe[0]`, `inputPipe[1]`,
`outputPipe[0]`, `outputPipe[1]`, `errorPipe[0]`, `errorPipe[1]`. -/
inductive PipeEnd where
  | inputRead
  | inputWrite
  | outputRead
  | outputWrite
  | errorRead
  | errorWrite
deriving DecidableEq, Repr

/-- Which OS calls succeed during `MyShell::createUnixProcess`, and the
errno value in effect when one fails. -/
structure SpawnOracle where
  inputPipeOk : Bool
  outputPipeOk : Bool
  errorPipeOk : Bool
  forkOk : Bool
  errnoVal : Nat
deriving DecidableEq, Repr

/-- Observable outcome of running the constructor's spawning step: which
parent-side pipe ends were created, which were closed before the call
returned or threw, and the errno carried by the thrown `std::system_error`
(`none` when construction succeeded). -/
structure SpawnOutcome where
  created : List PipeEnd
  closedEnds : List PipeEnd
  thrown : Option Nat
deriving DecidableEq, Repr

/-- The three ends closed by `MyShell::closeUnixPipes` (myshell.cpp lines
199-203): `inputPipe[1]`, `outputPipe[0]`, `errorPipe[0]`. -/
def closeUnixPipesEnds : List PipeEnd :=
  [.inputWrite, .outputRead, .errorRead]

/-- `MyShell::createUnixProcess` (myshell.cpp lines 154-197), tracking pipe
ends in the parent. The `pipe` calls short-circuit: a failure throws at
once, closing nothing. A `fork` failure calls `closeUnixPipes` (three of
the six ends) and throws. On success the parent closes the three
child-side ends and keeps the other three. -/
def createUnixProcess (o : SpawnOracle) : SpawnOutcome :=
  if o.inputPipeOk = false then
    { created := [], closedEnds := [], thrown := some o.errnoVal }
  else if o.outputPipeOk = false then
    { created := [.inputRead, .inputWrite]
      closedEnds := []
      thrown := some o.errnoVal }
  else if o.errorPipeOk = false then
    { created := [.inputRead, .inputWrite, .outputRead, .outputWrite]
      closedEnds := []
      thrown := some o.errnoVal }
  else if o.forkOk = false then
    { created := [.inputRead, .inputWrite, .outputRead, .outputWrite,
                  .errorRead, .errorWrite]
      closedEnds := closeUnixPipesEnds
      thrown := some o.errnoVal }
  else
    { created := [.inputRead, .inputWrite, .outputRead, .outputWrite,
                  .errorRead, .errorWrite]
      closedEnds := [.inputRead, .outputWrite, .errorWrite]
      thrown := none }

/-! ### Helper lemmas -/

/-- A chunk with no NUL byte survives the C-string append unchanged. -/
theorem cString_eq_self : ∀ (c : List Byte), (∀ b ∈ c, b ≠ 0) → cString c = c := by
  intro c
  induction c with
  | nil => intro _; rfl
  | cons a t ih =>
    intro h
    have ha : (a != 0) = true := by
      simpa using h a (by simp)
    have ht := ih (fun b hb => h b (by simp [hb]))
    simp only [cString, List.takeWhile_cons, ha, if_true]
    simpa [cString] using ht

/-- Conservation of bytes along a stream schedule whose read chunks are
NUL-free: everything drained so far plus what is still buffered equals the
starting buffer plus everything the child wrote. -/
theorem runStream_flatten : ∀ (evs : List StreamEvent) (buf : List Byte),
    (∀ b ∈ writtenBytes evs, b ≠ 0) →
    ((runStream evs buf).1).flatten ++ (runStream evs buf).2 =
      buf ++ writtenBytes evs := by
  intro evs
  induction evs with
  | nil => intro buf _; simp [runStream, writtenBytes]
  | cons e rest ih =>
    intro buf h
    cases e with
    | readEv o =>
      cases o with
      | dataR c =>
        have hc : ∀ b ∈ c, b ≠ 0 := fun b hb => h b (by simp [writtenBytes, hb])
        have hrest : ∀ b ∈ writtenBytes rest, b ≠ 0 :=
          fun b hb => h b (by simp [writtenBytes, hb])
        by_cases hlen : c.length > 0
        · have step := ih (buf ++ cString c) hrest
          simp only [runStream, readIterBuf, hlen, if_true, writtenBytes]
          rw [step, cString_eq_self c hc, List.append_assoc]
        · have hnil : c = [] := List.length_eq_zero.mp (Nat.eq_zero_of_not_pos hlen)
          have step := ih buf hrest
          simp only [runStream, readIterBuf, hlen, if_false, writtenBytes, hnil,
            List.nil_append]
          exact step
      | eofR =>
        have hrest : ∀ b ∈ writtenBytes rest, b ≠ 0 :=
          fun b hb => h b (by simp [writtenBytes, hb])
        simpa only [runStream, readIterBuf, writtenBytes] using ih buf hrest
      | errR n =>
        have hrest : ∀ b ∈ writtenBytes rest, b ≠ 0 :=
          fun b hb => h b (by simp [writtenBytes, hb])
        simpa only [runStream, readIterBuf, writtenBytes] using ih buf hrest
    | drainEv =>
      have hrest : ∀ b ∈ writtenBytes rest, b ≠ 0 :=
        fun b hb => h b (by simp [writtenBytes, hb])
      have step := ih [] hrest
      simp only [runStream, writtenBytes, List.flatten_cons]
      rw [List.append_assoc, step, List.nil_append]

/-! ### Claims -/

/-- Claim C1, counterexample: the child writes the three bytes 65, 0, 66 in
one chunk and the consumer then drains. The drain returns only byte 65:
the C-string append `buffer += tempBuffer.data()` drops the NUL and
everything after it, so the concatenation of all drained text does not
equal the bytes written, refuting the claim for sequences containing NUL
bytes. -/
theorem C1_counterexample :
    writtenBytes [.readEv (.dataR [65, 0, 66]), .drainEv] = [65, 0, 66] ∧
    drainedBytes [.readEv (.dataR [65, 0, 66]), .drainEv] = [65] ∧
    (runStream [.readEv (.dataR [65, 0, 66]), .drainEv] []).2 = [] ∧
    drainedBytes [.readEv (.dataR [65, 0, 66]), .drainEv] ≠
      writtenBytes [.readEv (.dataR [65, 0, 66]), .drainEv] := by
  refine ⟨rfl, rfl, rfl, by decide⟩

/-- Claim C1 as amended: for each stream, over any schedule of pump reads
and sequential drains, if the bytes the child wrote contain no NUL byte,
then the concatenation of all text returned by the drain calls, in call
order, followed by the bytes still buffered, equals the total byte
sequence the child wrote; in particular no byte is lost or duplicated. -/
theorem C1_drain_no_loss (evs : List StreamEvent)
    (h : ∀ b ∈ writtenBytes evs, b ≠ 0) :
    drainedBytes evs ++ (runStream evs []).2 = writtenBytes evs := by
  simpa [drainedBytes] using runStream_flatten evs [] h

/-- Witness for C1: two NUL-free bytes written in one chunk, then drained. -/
theorem C1_drain_no_loss_witness :
    drainedBytes [.readEv (.dataR [65, 66]), .drainEv] ++
      (runStream [.readEv (.dataR [65, 66]), .drainEv] []).2 =
      writtenBytes [.readEv (.dataR [65, 66]), .drainEv] :=
  C1_drain_no_loss [.readEv (.dataR [65, 66]), .drainEv] (by decide)

/-- Claim C5, counterexample: the Unix pump loop body has no break or
return, so a definitive read error does not end the loop — after a read
failing with errno 9 (EBADF, an invalid descriptor) the next iteration
still runs and appends its chunk — and neither an error iteration nor an
end-of-stream iteration sleeps (the backoff runs only for EAGAIN), so a
stream at end-of-file busy-spins with zero sleeps. -/
theorem C5_counterexample :
    readFromPipe [.errR 9, .dataR [65]] [] = ([65], 0) ∧
    readFromPipe [.eofR, .eofR, .eofR] [] = ([], 0) := by
  decide

/-- Claim C5 as amended: in the Unix pump loop, a would-block outcome
(errno EAGAIN) triggers the bounded 10 ms backoff sleep; a definitive read
error (errno other than EAGAIN) or an end-of-stream read neither ends the
loop nor sleeps — the iteration leaves the buffer unchanged and the loop
continues (busy-spinning) until the stop signal is observed. -/
theorem C5_pump_backoff (e : ReadOutcome) (rest : List ReadOutcome)
    (buf : List Byte)
    (h : e = .eofR ∨ ∃ n, n ≠ EAGAIN ∧ e = .errR n) :
    readFromPipe (e :: rest) buf = readFromPipe rest buf ∧
    readIterSleeps e = false ∧
    readIterSleeps (.errR EAGAIN) = true := by
  rcases h with h | ⟨n, hn, h⟩
  · subst h
    refine ⟨?_, rfl, by simp [readIterSleeps, EAGAIN]⟩
    simp [readFromPipe, readIterBuf, readIterSleeps]
  · subst h
    have hs : readIterSleeps (.errR n) = false := by
      simp [readIterSleeps, hn]
    refine ⟨?_, hs, by simp [readIterSleeps, EAGAIN]⟩
    simp [readFromPipe, readIterBuf, hs]

/-- Witness for C5: an end-of-stream iteration is a sleepless no-op. -/
theorem C5_pump_backoff_witness :
    readFromPipe [ReadOutcome.eofR] [] = readFromPipe [] [] ∧
    readIterSleeps .eofR = false ∧
    readIterSleeps (.errR EAGAIN) = true :=
  C5_pump_backoff .eofR [] [] (Or.inl rfl)

/-- Claim C2: the constructor initializes `procExitCode` to 0, and the
still-running path of `hasExited` leaves it untouched, so `exitCode()` on
a not-yet-exited instance returns 0 — not the documented -1 sentinel. This
evaluates the code at the failing input: a freshly constructed instance
whose `waitpid` check reports the child still running. -/
theorem C2_exitCode_running_returns_zero :
    initState.procHasExited = false ∧
    exitCode .stillRunning initState = (0, initState) ∧
    (exitCode .stillRunning initState).1 ≠ -1 := by
  refine ⟨rfl, rfl, by decide⟩

/-- Claim C3: whenever `hasExited` observes (or has already latched)
termination — that is, whenever it returns true — it drains both buffers
and discards the contents: the resulting state has both buffers empty, so
an immediately following drain of either stream returns nothing, and any
bytes that were buffered at the call are never returned later. -/
theorem C3_hasExited_drains_buffers (w : WaitResult) (s : ShellState)
    (h : (hasExited w s).1 = true) :
    (hasExited w s).2.outputBuffer = [] ∧
    (hasExited w s).2.errorBuffer = [] ∧
    (readShellOutputStream (hasExited w s).2).1 = [] ∧
    (readShellErrorStream (hasExited w s).2).1 = [] := by
  by_cases hp : s.procHasExited
  · simp [hasExited, hp, drainBoth, readShellOutputStream, readShellErrorStream]
  · cases w with
    | reaped st =>
      simp [hasExited, hp, drainBoth, readShellOutputStream,
        readShellErrorStream]
    | stillRunning => simp [hasExited, hp] at h
    | waitFailed => simp [hasExited, hp] at h

/-- Witness for C3: a latched state with bytes pending in both buffers. -/
theorem C3_hasExited_drains_buffers_witness :
    (hasExited .stillRunning
      { procHasExited := true, procExitCode := 1, stopSignal := false,
        outputBuffer := [65], errorBuffer := [66] }).2.outputBuffer = [] ∧
    (hasExited .stillRunning
      { procHasExited := true, procExitCode := 1, stopSignal := false,
        outputBuffer := [65], errorBuffer := [66] }).2.errorBuffer = [] ∧
    (readShellOutputStream (hasExited .stillRunning
      { procHasExited := true, procExitCode := 1, stopSignal := false,
        outputBuffer := [65], errorBuffer := [66] }).2).1 = [] ∧
    (readShellErrorStream (hasExited .stillRunning
      { procHasExited := true, procExitCode := 1, stopSignal := false,
        outputBuffer := [65], errorBuffer := [66] }).2).1 = [] :=
  C3_hasExited_drains_buffers .stillRunning
    { procHasExited := true, procExitCode := 1, stopSignal := false,
      outputBuffer := [65], errorBuffer := [66] } (by decide)

/-- Claim C4, counterexample: when the first `pipe` call succeeds and the
second fails (errno 5), the constructor throws the `std::system_error`
with that errno, but the two already-created input-pipe ends are not
closed before the error is surfaced — refuting "every channel end created
so far is closed". -/
theorem C4_counterexample :
    (createUnixProcess
      { inputPipeOk := true, outputPipeOk := false, errorPipeOk := true,
        forkOk := true, errnoVal := 5 }).thrown = some 5 ∧
    (createUnixProcess
      { inputPipeOk := true, outputPipeOk := false, errorPipeOk := true,
        forkOk := true, errnoVal := 5 }).created =
      [.inputRead, .inputWrite] ∧
    (createUnixProcess
      { inputPipeOk := true, outputPipeOk := false, errorPipeOk := true,
        forkOk := true, errnoVal := 5 }).closedEnds = [] := by
  decide

/-- Claim C4 as amended: if any pipe-creation or fork step fails, the
constructor throws a `std::system_error` carrying the underlying errno (so
no half-initialized instance is returned), but the cleanup is partial: on
a pipe-creation failure no already-created pipe end is closed before the
throw, and on a fork failure only the three ends of `closeUnixPipes`
(input write, output read, error read) are closed — the three child-side
ends leak. -/
theorem C4_spawn_failure (o : SpawnOracle)
    (h : o.inputPipeOk = false ∨ o.outputPipeOk = false ∨
      o.errorPipeOk = false ∨ o.forkOk = false) :
    (createUnixProcess o).thrown = some o.errnoVal ∧
    (createUnixProcess o).closedEnds =
      (if o.inputPipeOk && o.outputPipeOk && o.errorPipeOk then
        closeUnixPipesEnds else []) := by
  rcases o with ⟨i, ou, er, f, e⟩
  cases i <;> cases ou <;> cases er <;> cases f <;>
    simp_all [createUnixProcess, closeUnixPipesEnds]

/-- Witness for C4: all three pipes created, fork fails with errno 7. -/
theorem C4_spawn_failure_witness :
    (createUnixProcess ⟨true, true, true, false, 7⟩).thrown = some 7 ∧
    (createUnixProcess ⟨true, true, true, false, 7⟩).closedEnds =
      closeUnixPipesEnds :=
  C4_spawn_failure ⟨true, true, true, false, 7⟩ (by decide)

/-- Claim C6: `forceExit` unconditionally latches `procHasExited = true`
and `procExitCode = 1` (the result of the `kill` call is never inspected),
so immediately afterwards `hasExited()` returns true and `exitCode()`
returns 1, whatever the `waitpid` outcome would have been. -/
theorem C6_forceExit_latches (s : ShellState) (w : WaitResult) :
    (forceExit s).procHasExited = true ∧
    (forceExit s).procExitCode = 1 ∧
    (hasExited w (forceExit s)).1 = true ∧
    (exitCode w (forceExit s)).1 = 1 := by
  simp [forceExit, hasExited, exitCode]

/-- Claim C7: when the liveness check reaps the child, the latched code is
`WIFEXITED(status) ? WEXITSTATUS(status) : 1`: normal termination with
status N (0 ≤ N ≤ 255) latches N and `exitCode()` thereafter returns N;
abnormal termination (signal death) latches the fixed sentinel 1. -/
theorem C7_exit_code_fidelity (n sig : Nat) (s : ShellState)
    (hn : n ≤ 255) (hs : s.procHasExited = false) :
    ((hasExited (.reaped (.exitedNormally n)) s).1 = true ∧
      (hasExited (.reaped (.exitedNormally n)) s).2.procExitCode = (n : Int) ∧
      (exitCode .stillRunning
        (hasExited (.reaped (.exitedNormally n)) s).2).1 = (n : Int)) ∧
    ((hasExited (.reaped (.signaled sig)) s).1 = true ∧
      (hasExited (.reaped (.signaled sig)) s).2.procExitCode = 1 ∧
      (exitCode .stillRunning
        (hasExited (.reaped (.signaled sig)) s).2).1 = 1) := by
  have hmod : n % 256 = n := Nat.mod_eq_of_lt (Nat.lt_succ_of_le hn)
  simp [hasExited, hs, exitCode, normalizeStatus, drainBoth,
    readShellOutputStream, readShellErrorStream, hmod]

/-- Witness for C7: a child exiting with status 42, and one dying to
signal 9, reaped from the freshly constructed state. -/
theorem C7_exit_code_fidelity_witness :
    ((hasExited (.reaped (.exitedNormally 42)) initState).1 = true ∧
      (hasExited (.reaped (.exitedNormally 42)) initState).2.procExitCode =
        (42 : Int) ∧
      (exitCode .stillRunning
        (hasExited (.reaped (.exitedNormally 42)) initState).2).1 =
        (42 : Int)) ∧
    ((hasExited (.reaped (.signaled 9)) initState).1 = true ∧
      (hasExited (.reaped (.signaled 9)) initState).2.procExitCode = 1 ∧
      (exitCode .stillRunning
        (hasExited (.reaped (.signaled 9)) initState).2).1 = 1) :=
  C7_exit_code_fidelity 42 9 initState (by decide) (by decide)

/-- Claim C8: each drain returns exactly the buffer's current contents and
leaves that buffer empty (the empty string when nothing accumulated), so
no byte is both returned and retained, and two consecutive drains with no
intervening append return the contents and then the empty string — stated
both on the state operations and on the stream-schedule semantics. -/
theorem C8_drain_move_and_clear (s : ShellState) (evs : List StreamEvent)
    (buf : List Byte) :
    (readShellOutputStream s).1 = s.outputBuffer ∧
    (readShellOutputStream s).2.outputBuffer = [] ∧
    (readShellOutputStream (readShellOutputStream s).2).1 = [] ∧
    (readShellErrorStream s).1 = s.errorBuffer ∧
    (readShellErrorStream s).2.errorBuffer = [] ∧
    (readShellErrorStream (readShellErrorStream s).2).1 = [] ∧
    runStream (.drainEv :: .drainEv :: evs) buf =
      (buf :: [] :: (runStream evs []).1, (runStream evs []).2) :=
  ⟨rfl, rfl, rfl, rfl, rfl, rfl, rfl⟩

/-- Claim C9, counterexample: after `hasExited` reaps a child that exited
normally with status 42, the exit code 42 is latched; a later
`forceExit()` call nevertheless overwrites the latched code with 1, so the
exit code is not set at most once per run. -/
theorem C9_counterexample :
    (runOps [.hasExitedOp (.reaped (.exitedNormally 42))]
      initState).procHasExited = true ∧
    (runOps [.hasExitedOp (.reaped (.exitedNormally 42))]
      initState).procExitCode = 42 ∧
    (runOps [.hasExitedOp (.reaped (.exitedNormally 42)), .forceExitOp]
      initState).procExitCode = 1 := by
  decide

/-- Claim C9 as amended: across any sequence of operations, the
`procHasExited` flag never goes back from true to false (so it transitions
false→true at most once), and once latched the exit code is changed by no
operation other than `forceExit()`, which unconditionally overwrites it
with 1 even when a code was already latched. -/
theorem C9_flag_monotone_code_stable (op : Op) (s : ShellState) :
    (s.procHasExited = true → (applyOp op s).procHasExited = true) ∧
    (s.procHasExited = true → op ≠ .forceExitOp →
      (applyOp op s).procExitCode = s.procExitCode) := by
  constructor
  · intro h
    cases op <;>
      simp [applyOp, hasExited, exitCode, forceExit, drainBoth,
        readShellOutputStream, readShellErrorStream, h]
  · intro h hne
    cases op with
    | forceExitOp => exact absurd rfl hne
    | hasExitedOp w =>
      simp [applyOp, hasExited, h, drainBoth, readShellOutputStream,
        readShellErrorStream]
    | exitCodeOp w => simp [applyOp, exitCode, h]
    | drainOutOp => simp [applyOp, readShellOutputStream]
    | drainErrOp => simp [applyOp, readShellErrorStream]
    | appendOutOp c => simp [applyOp]
    | appendErrOp c => simp [applyOp]

/-- Witness for C9: a drain on a latched state keeps the flag true and the
code unchanged. -/
theorem C9_flag_monotone_code_stable_witness :
    (applyOp .drainOutOp (forceExit initState)).procHasExited = true ∧
    (applyOp .drainOutOp (forceExit initState)).procExitCode =
      (forceExit initState).procExitCode :=
  ⟨(C9_flag_monotone_code_stable .drainOutOp (forceExit initState)).1
      (by decide),
    (C9_flag_monotone_code_stable .drainOutOp (forceExit initState)).2
      (by decide) (by decide)⟩

/-- Claim C10: on an instance whose exit state is not latched and whose
`waitpid` check reports the child still running, `hasExited` returns false
and the state — both buffers, the flag, the exit code — is exactly
unchanged. -/
theorem C10_running_no_mutation (s : ShellState)
    (h : s.procHasExited = false) :
    hasExited .stillRunning s = (false, s) := by
  simp [hasExited, h]

/-- Witness for C10: the freshly constructed state with a running child. -/
theorem C10_running_no_mutation_witness :
    hasExited .stillRunning initState = (false, initState) :=
  C10_running_no_mutation initState (by decide)

end MyShell
